import Mathlib

/-!
Verification of the Mail.tm client gateway (`mailtm/impls/xclient.py`,
class `AsyncMail`) against its specification.

The embedding is shallow: the HTTP client session is modelled by an
`Oracle` (a function from requests to responses), every operation returns
its result together with the list of HTTP requests it issued, and the
exception hierarchy is modelled by the error type `Err` inside `Except`.
Parts of the repository that `xclient.py` imports but whose files are not
part of the sources at hand (`abc/modals.py`, `abc/generic.py`,
`core/methods.py`, `core/errors.py`, and the external `msgspec` codec) are
modelled from the specification; each such definition says so in its doc
comment.
-/

set_option autoImplicit false

/-- JSON values, the wire format of every request body and response body.
Numbers are modelled as integers: every numeric field exchanged by these
endpoints (quota, size, page, total) is an integer. -/
inductive Json where
  | str (s : String)
  | num (n : Int)
  | bool (b : Bool)
  | null
  | arr (items : List Json)
  | obj (fields : List (String × Json))
deriving Repr

/-- Whitespace skipping for the JSON reader. -/
def skipWs : List Char → List Char
  | [] => []
  | c :: cs => if c = ' ' ∨ c = '\n' ∨ c = '\t' ∨ c = '\r' then skipWs cs else c :: cs

/-- Read the characters of a JSON string literal up to the closing quote
(the bodies exchanged here use no escape sequences). -/
def parseStrChars : List Char → Option (List Char × List Char)
  | [] => none
  | c :: cs =>
    if c = '"' then some ([], cs)
    else if c = '\\' then none
    else (parseStrChars cs).map (fun p => (c :: p.1, p.2))

/-- Longest prefix of decimal digits. -/
def takeDigits : List Char → (List Char × List Char)
  | [] => ([], [])
  | c :: cs =>
    if c.isDigit then
      let p := takeDigits cs
      (c :: p.1, p.2)
    else ([], c :: cs)

/-- Decimal digits to a natural number, most significant first. -/
def digitsToNat (acc : Nat) : List Char → Nat
  | [] => acc
  | c :: cs => digitsToNat (acc * 10 + (c.toNat - 48)) cs

/-- Read a JSON integer (optional minus sign, then digits). -/
def parseNum : List Char → Option (Json × List Char)
  | '-' :: rest =>
    match takeDigits rest with
    | ([], _) => none
    | (ds, r) => some (Json.num (-(digitsToNat 0 ds : Int)), r)
  | cs =>
    match takeDigits cs with
    | ([], _) => none
    | (ds, r) => some (Json.num (digitsToNat 0 ds), r)

mutual

/-- Read one JSON value. Fuel-indexed recursion; `jsonParse` supplies
enough fuel for any input. -/
def parseVal : Nat → List Char → Option (Json × List Char)
  | 0, _ => none
  | Nat.succ fuel, cs =>
    match skipWs cs with
    | [] => none
    | '"' :: rest => (parseStrChars rest).map (fun p => (Json.str (String.mk p.1), p.2))
    | 't' :: 'r' :: 'u' :: 'e' :: rest => some (Json.bool true, rest)
    | 'f' :: 'a' :: 'l' :: 's' :: 'e' :: rest => some (Json.bool false, rest)
    | 'n' :: 'u' :: 'l' :: 'l' :: rest => some (Json.null, rest)
    | '[' :: rest =>
      match skipWs rest with
      | ']' :: r => some (Json.arr [], r)
      | r => (parseItems fuel r).map (fun p => (Json.arr p.1, p.2))
    | '{' :: rest =>
      match skipWs rest with
      | '}' :: r => some (Json.obj [], r)
      | r => (parseMembers fuel r).map (fun p => (Json.obj p.1, p.2))
    | c :: rest =>
      if c.isDigit ∨ c = '-' then parseNum (c :: rest) else none

/-- Read the items of a non-empty JSON array, up to and past `]`. -/
def parseItems : Nat → List Char → Option (List Json × List Char)
  | 0, _ => none
  | Nat.succ fuel, cs =>
    match parseVal fuel cs with
    | none => none
    | some (j, rest) =>
      match skipWs rest with
      | ',' :: r => (parseItems fuel r).map (fun p => (j :: p.1, p.2))
      | ']' :: r => some ([j], r)
      | _ => none

/-- Read the members of a non-empty JSON object, up to and past `}`. -/
def parseMembers : Nat → List Char → Option (List (String × Json) × List Char)
  | 0, _ => none
  | Nat.succ fuel, cs =>
    match skipWs cs with
    | '"' :: rest =>
      match parseStrChars rest with
      | none => none
      | some (key, r1) =>
        match skipWs r1 with
        | ':' :: r2 =>
          match parseVal fuel r2 with
          | none => none
          | some (j, r3) =>
            match skipWs r3 with
            | ',' :: r4 => (parseMembers fuel r4).map (fun p => ((String.mk key, j) :: p.1, p.2))
            | '}' :: r4 => some ([(String.mk key, j)], r4)
            | _ => none
        | _ => none
    | _ => none

end

/-- Parse a whole byte string as one JSON document. Fails on empty input
and on trailing garbage. -/
def jsonParse (s : String) : Option Json :=
  match parseVal (s.length + 1) s.data with
  | some (j, rest) => if skipWs rest = [] then some j else none
  | none => none

/-- First value bound to key `k` in a decoded JSON object (Python dicts and
msgspec objects key each field once). -/
def jLookup (k : String) : List (String × Json) → Option Json
  | [] => none
  | (k', v) :: rest => if k' = k then some v else jLookup k rest

/-- A JSON value as a string, when it is one. -/
def asStr : Json → Option String
  | Json.str s => some s
  | _ => none

/-- A JSON value as an integer, when it is one. -/
def asInt : Json → Option Int
  | Json.num n => some n
  | _ => none

/-- A JSON value as a boolean, when it is one. -/
def asBool : Json → Option Bool
  | Json.bool b => some b
  | _ => none

/-- A JSON array decoded elementwise, when every element decodes. -/
def asList {α : Type} (dec : Json → Option α) : Json → Option (List α)
  | Json.arr items => items.mapM dec
  | _ => none

/-- Modelled from the spec (`mailtm/abc/generic.py` is not among the sources):
a `Token` "holds an authentication identifier and the account id it
authenticates; supplied by the caller at construction, never mutated". -/
structure Token where
  id : String
  token : String
deriving Repr, DecidableEq

/-- Modelled from the spec (`mailtm/abc/modals.py` is not among the sources):
an `Account` record — "id, address, quota usage fields, creation/update
timestamps". -/
structure Account where
  id : String
  address : String
  quota : Int
  used : Int
  createdAt : String
  updatedAt : String
deriving Repr, DecidableEq

/-- Modelled from the spec: a `Domain` record — "id, domain name string,
active/public flags, timestamps". -/
structure Domain where
  id : String
  domain : String
  isActive : Bool
  isPublic : Bool
  createdAt : String
  updatedAt : String
deriving Repr, DecidableEq

/-- Modelled from the spec: a `Message` record — "id, sender/recipient info,
subject, intro/body text, seen/flagged booleans, size, timestamps". -/
structure Message where
  id : String
  sender : String
  recipient : String
  subject : String
  intro : String
  seen : Bool
  flagged : Bool
  size : Int
  createdAt : String
  updatedAt : String
deriving Repr, DecidableEq

/-- Modelled from the spec: a `Source` record "holding raw MIME/text data
for one message". -/
structure Source where
  id : String
  data : String
deriving Repr, DecidableEq

/-- Modelled from the spec: `PageView<Domain>` — "a page number, total item
count, and an ordered sequence" of domains. -/
structure DomainPageView where
  page : Int
  total : Int
  domains : List Domain
deriving Repr, DecidableEq

/-- Modelled from the spec: `PageView<Message>` — "a page number, total item
count, and an ordered sequence" of messages. -/
structure MessagePageView where
  page : Int
  total : Int
  messages : List Message
deriving Repr, DecidableEq

/-- Validation of a decoded JSON document into an `Account`: each declared
field is looked up by name; fields not looked up are ignored (the msgspec
record decode is non-strict per the spec). -/
def decodeAccount (j : Json) : Option Account :=
  match j with
  | Json.obj kvs => do
    let id ← jLookup "id" kvs >>= asStr
    let address ← jLookup "address" kvs >>= asStr
    let quota ← jLookup "quota" kvs >>= asInt
    let used ← jLookup "used" kvs >>= asInt
    let createdAt ← jLookup "createdAt" kvs >>= asStr
    let updatedAt ← jLookup "updatedAt" kvs >>= asStr
    pure { id, address, quota, used, createdAt, updatedAt }
  | _ => none

/-- Validation of a decoded JSON document into a `Domain`. -/
def decodeDomain (j : Json) : Option Domain :=
  match j with
  | Json.obj kvs => do
    let id ← jLookup "id" kvs >>= asStr
    let domain ← jLookup "domain" kvs >>= asStr
    let isActive ← jLookup "isActive" kvs >>= asBool
    let isPublic ← jLookup "isPublic" kvs >>= asBool
    let createdAt ← jLookup "createdAt" kvs >>= asStr
    let updatedAt ← jLookup "updatedAt" kvs >>= asStr
    pure { id, domain, isActive, isPublic, createdAt, updatedAt }
  | _ => none

/-- Validation of a decoded JSON document into a `Message`. -/
def decodeMessage (j : Json) : Option Message :=
  match j with
  | Json.obj kvs => do
    let id ← jLookup "id" kvs >>= asStr
    let sender ← jLookup "sender" kvs >>= asStr
    let recipient ← jLookup "recipient" kvs >>= asStr
    let subject ← jLookup "subject" kvs >>= asStr
    let intro ← jLookup "intro" kvs >>= asStr
    let seen ← jLookup "seen" kvs >>= asBool
    let flagged ← jLookup "flagged" kvs >>= asBool
    let size ← jLookup "size" kvs >>= asInt
    let createdAt ← jLookup "createdAt" kvs >>= asStr
    let updatedAt ← jLookup "updatedAt" kvs >>= asStr
    pure { id, sender, recipient, subject, intro, seen, flagged, size, createdAt, updatedAt }
  | _ => none

/-- Validation of a decoded JSON document into a `Source`. -/
def decodeSource (j : Json) : Option Source :=
  match j with
  | Json.obj kvs => do
    let id ← jLookup "id" kvs >>= asStr
    let data ← jLookup "data" kvs >>= asStr
    pure { id, data }
  | _ => none

/-- Validation of a decoded JSON document into a `DomainPageView`. -/
def decodeDomainPageView (j : Json) : Option DomainPageView :=
  match j with
  | Json.obj kvs => do
    let page ← jLookup "page" kvs >>= asInt
    let total ← jLookup "total" kvs >>= asInt
    let domains ← jLookup "domains" kvs >>= asList decodeDomain
    pure { page, total, domains }
  | _ => none

/-- Validation of a decoded JSON document into a `MessagePageView`. -/
def decodeMessagePageView (j : Json) : Option MessagePageView :=
  match j with
  | Json.obj kvs => do
    let page ← jLookup "page" kvs >>= asInt
    let total ← jLookup "total" kvs >>= asInt
    let messages ← jLookup "messages" kvs >>= asList decodeMessage
    pure { page, total, messages }
  | _ => none

/-- One HTTP request as the aiohttp session issues it: method, absolute URL,
the session's default headers, the JSON body (aiohttp's `json=` argument)
and the query parameters (aiohttp's `params=` argument). -/
structure HttpRequest where
  method : String
  url : String
  headers : List (String × String)
  jsonBody : Option Json
  params : Option (List (String × String))
deriving Repr

/-- One HTTP response: status code and raw body bytes (modelled as a
string of bytes). -/
structure HttpResponse where
  status : Nat
  body : String
deriving Repr, DecidableEq

/-- The network, abstracted: what response the server returns to each
request. The client under verification is deterministic relative to it. -/
def Oracle : Type := HttpRequest → HttpResponse

/-- The failures an operation can raise. `MissingArgument` through
`RatelimitError` are the exception classes imported from
`mailtm/core/errors.py` (modelled from the spec's error-kind table, the
file being absent from the sources); `ValueError` is Python's built-in
raised on an unknown status; `DecodeError` is msgspec's decode failure. -/
inductive Err where
  | MissingArgument (msg : String)
  | AccountTokenInvalid (msg : String)
  | EntityNotFound (msg : String)
  | MethodNotAllowed (msg : String)
  | RefusedToProcess (msg : String)
  | EntityNotProcessable (msg : String)
  | RatelimitError (msg : String)
  | ValueError (msg : String)
  | DecodeError (msg : String)
deriving Repr, DecidableEq

/-- Modelled from msgspec's contract: `msgspec.json.decode(resp, type=τ,
strict=False)` parses the bytes as JSON and validates them into the record
type; it raises a decode error when the bytes are not a JSON document
(empty input included) or the document lacks a declared field. -/
def msgspecDecode {α : Type} (dec : Json → Option α) (s : String) : Except Err α :=
  match jsonParse s with
  | none => Except.error (Err.DecodeError "Input data was truncated")
  | some j =>
    match dec j with
    | some v => Except.ok v
    | none => Except.error (Err.DecodeError "Object missing required field")

/-- Modelled from the spec (`mailtm/core/methods.py` is not among the
sources): the relative endpoint paths of §6, with the `{id}` substitution
of Python's `str.format` folded into each `*_BY_ID` constant. -/
def AccountMethods.GET_ME : String := "/me"

/-- Modelled from the spec: `POST /accounts`. -/
def AccountMethods.CREATE_ACCOUNT : String := "/accounts"

/-- Modelled from the spec: `/accounts/{id}` with `{id}` substituted. -/
def AccountMethods.GET_ACCOUNT_BY_ID (id : String) : String := "/accounts/" ++ id

/-- Modelled from the spec: `/accounts/{id}` with `{id}` substituted. -/
def AccountMethods.DELETE_ACCOUNT_BY_ID (id : String) : String := "/accounts/" ++ id

/-- Modelled from the spec: `GET /domains`. -/
def DomainMethods.GET_ALL_DOMAINS : String := "/domains"

/-- Modelled from the spec: `/domains/{id}` with `{id}` substituted. -/
def DomainMethods.GET_DOMAIN_BY_ID (id : String) : String := "/domains/" ++ id

/-- Modelled from the spec: `GET /messages`. -/
def MessageMethods.GET_ALL_MESSAGES : String := "/messages"

/-- Modelled from the spec: `/messages/{id}` with `{id}` substituted. -/
def MessageMethods.GET_MESSAGE_BY_ID (id : String) : String := "/messages/" ++ id

/-- Modelled from the spec: `/messages/{id}` with `{id}` substituted. -/
def MessageMethods.DELETE_MESSAGE_BY_ID (id : String) : String := "/messages/" ++ id

/-- Modelled from the spec: `/sources/{id}` with `{id}` substituted. -/
def MessageMethods.GET_SOURCES_BY_ID (id : String) : String := "/sources/" ++ id

/-- `urllib.parse.urljoin` restricted to the shapes this client uses: the
base URL `https://api.mail.tm` has no path of its own and every relative
part starts with `/`, so the join is plain concatenation of the base and
the relative path. -/
def urljoin (base rel : String) : String := base ++ rel

/-- The state of `AsyncMail`: the optional construction token, the fixed
base URL, and the aiohttp session's default headers. -/
structure AsyncMail where
  _account_token : Option Token
  _base_url : String
  _client_headers : List (String × String)
deriving Repr

/-- `AsyncMail.__init__` (xclient.py lines 28–35): store the optional
token, fix the base URL, open the session and, when a token was given,
add the `Authorization: Bearer <token>` header to the session's default
headers. The second component is the list of HTTP requests construction
issues: none. The f-string rendering of the `Token` object is modelled
from the spec (`generic.py` is absent) as the token's authentication
identifier. -/
def AsyncMail.init (account_token : Option Token) : AsyncMail × List HttpRequest :=
  ({ _account_token := account_token
     _base_url := "https://api.mail.tm"
     _client_headers :=
       match account_token with
       | some tok => [("Authorization", "Bearer " ++ tok.token)]
       | none => [] },
   [])

/-- The status dispatch of `AsyncMail._interact` (xclient.py lines 57–88):
200 returns the response bytes, each documented status raises its error
class, anything else raises `ValueError("Unknown Error")`. -/
def statusDispatch (result : HttpResponse) : Except Err (Option String) :=
  if result.status = 200 then
    Except.ok (some result.body)
  else if result.status = 400 then
    Except.error (Err.MissingArgument
      "Something in your payload is missing! Or, the payload isn't there at all.")
  else if result.status = 401 then
    Except.error (Err.AccountTokenInvalid
      "Your token isn't correct (Or the headers hasn't a token at all!). Remember, every request (Except POST /accounts and POST /token) should be authenticated with a Bearer token!")
  else if result.status = 404 then
    Except.error (Err.EntityNotFound
      "You're trying to access an account that doesn't exist? Or maybe reading a non-existing message? Go check that!")
  else if result.status = 405 then
    Except.error (Err.MethodNotAllowed
      "Maybe you're trying to GET a /token or POST a /messages. Check the path you're trying to make a request to and check if the method is the correct one.")
  else if result.status = 418 then
    Except.error (Err.RefusedToProcess
      "Server is a teapot. And refused to process your request at the moment. Kindly contact the developers for further details.")
  else if result.status = 422 then
    Except.error (Err.EntityNotProcessable
      "Some went wrong on your payload. Like, the username of the address while creating the account isn't long enough, or, the account's domain isn't correct. Things like that.")
  else if result.status = 429 then
    Except.error (Err.RatelimitError
      "You exceeded the limit of 8 requests per second! Try delaying the request by one second!")
  else
    Except.error (Err.ValueError "Unknown Error")

/-- `AsyncMail._interact` (xclient.py lines 37–88): dispatch on the verb —
GET and DELETE attach the query parameters, POST and PATCH attach the JSON
body, any other verb raises `MethodNotAllowed` without touching the
network — then dispatch on the response status. The second component is
the list of HTTP requests issued. -/
def AsyncMail._interact (m : AsyncMail) (oracle : Oracle) (method : String)
    (url : String) (body : Option Json) (params : Option (List (String × String))) :
    Except Err (Option String) × List HttpRequest :=
  if method = "GET" then
    let req : HttpRequest :=
      { method := "GET", url := url, headers := m._client_headers
        jsonBody := none, params := params }
    (statusDispatch (oracle req), [req])
  else if method = "POST" then
    let req : HttpRequest :=
      { method := "POST", url := url, headers := m._client_headers
        jsonBody := body, params := none }
    (statusDispatch (oracle req), [req])
  else if method = "DELETE" then
    let req : HttpRequest :=
      { method := "DELETE", url := url, headers := m._client_headers
        jsonBody := none, params := params }
    (statusDispatch (oracle req), [req])
  else if method = "PATCH" then
    let req : HttpRequest :=
      { method := "PATCH", url := url, headers := m._client_headers
        jsonBody := body, params := none }
    (statusDispatch (oracle req), [req])
  else
    (Except.error (Err.MethodNotAllowed "Report this as a bug on GitHub"), [])

/-- `AsyncMail._create_url` (xclient.py lines 90–91). -/
def AsyncMail._create_url (m : AsyncMail) (other_literal : String) : String :=
  urljoin m._base_url other_literal

/-- The shared tail of every decoding endpoint (`if resp is not None:
return msgspec.json.decode(resp, type=τ, strict=False) else: return
None`): a dispatcher error propagates, a `None` dispatcher result returns
`None`, and any returned bytes — empty or not — are decoded. -/
def decodeResponse {α : Type} (dec : Json → Option α) :
    Except Err (Option String) → Except Err (Option α)
  | Except.error e => Except.error e
  | Except.ok none => Except.ok none
  | Except.ok (some resp) =>
    match msgspecDecode dec resp with
    | Except.ok v => Except.ok (some v)
    | Except.error e => Except.error e

/-- `AsyncMail.get_me` (xclient.py lines 93–100). -/
def AsyncMail.get_me (m : AsyncMail) (oracle : Oracle) :
    Except Err (Option Account) × List HttpRequest :=
  let out := m._interact oracle "GET" (m._create_url AccountMethods.GET_ME) none none
  (decodeResponse decodeAccount out.1, out.2)

/-- `AsyncMail.get_domains` (xclient.py lines 102–112). -/
def AsyncMail.get_domains (m : AsyncMail) (oracle : Oracle) :
    Except Err (Option DomainPageView) × List HttpRequest :=
  let out := m._interact oracle "GET"
    (urljoin m._base_url DomainMethods.GET_ALL_DOMAINS) none none
  (decodeResponse decodeDomainPageView out.1, out.2)

/-- `AsyncMail.get_domain` (xclient.py lines 114–125). -/
def AsyncMail.get_domain (m : AsyncMail) (oracle : Oracle) (domain_id : String) :
    Except Err (Option Domain) × List HttpRequest :=
  let out := m._interact oracle "GET"
    (urljoin m._base_url (DomainMethods.GET_DOMAIN_BY_ID domain_id)) none none
  (decodeResponse decodeDomain out.1, out.2)

/-- `AsyncMail.get_account` (xclient.py lines 127–139): a POST with the id
in the path and a `params={"id": account_id}` argument handed to
`_interact`. -/
def AsyncMail.get_account (m : AsyncMail) (oracle : Oracle) (account_id : String) :
    Except Err (Option Account) × List HttpRequest :=
  let out := m._interact oracle "POST"
    (urljoin m._base_url (AccountMethods.GET_ACCOUNT_BY_ID account_id))
    none (some [("id", account_id)])
  (decodeResponse decodeAccount out.1, out.2)

/-- `AsyncMail.create_account` (xclient.py lines 141–155). -/
def AsyncMail.create_account (m : AsyncMail) (oracle : Oracle)
    (address password : String) :
    Except Err (Option Account) × List HttpRequest :=
  let body := Json.obj [("address", Json.str address), ("password", Json.str password)]
  let out := m._interact oracle "POST"
    (urljoin m._base_url AccountMethods.CREATE_ACCOUNT) (some body) none
  (decodeResponse decodeAccount out.1, out.2)

/-- `AsyncMail.delete_account` (xclient.py lines 157–179): with a stored
token and no explicit id, DELETE the token's account; with an explicit id,
DELETE that account; with neither, raise `AccountTokenInvalid` without
touching the network. -/
def AsyncMail.delete_account (m : AsyncMail) (oracle : Oracle)
    (account_id : Option String) : Except Err Unit × List HttpRequest :=
  match m._account_token, account_id with
  | some tok, none =>
    let out := m._interact oracle "DELETE"
      (urljoin m._base_url (AccountMethods.DELETE_ACCOUNT_BY_ID tok.id)) none none
    (out.1.map (fun _ => ()), out.2)
  | _, some aid =>
    let out := m._interact oracle "DELETE"
      (urljoin m._base_url (AccountMethods.DELETE_ACCOUNT_BY_ID aid)) none none
    (out.1.map (fun _ => ()), out.2)
  | none, none =>
    (Except.error (Err.AccountTokenInvalid "You need an account token to delete an account!"), [])

/-- `AsyncMail.get_messages` (xclient.py lines 181–195): a GET on
`/messages` with `params={"page": f"{page}"}`. -/
def AsyncMail.get_messages (m : AsyncMail) (oracle : Oracle) (page : Int) :
    Except Err (Option MessagePageView) × List HttpRequest :=
  let params := [("page", toString page)]
  let out := m._interact oracle "GET"
    (urljoin m._base_url MessageMethods.GET_ALL_MESSAGES) none (some params)
  (decodeResponse decodeMessagePageView out.1, out.2)

/-- `AsyncMail.get_messages` with its Python default argument `page=1`. -/
def AsyncMail.get_messages_default (m : AsyncMail) (oracle : Oracle) :
    Except Err (Option MessagePageView) × List HttpRequest :=
  m.get_messages oracle 1

/-- `AsyncMail.get_message` (xclient.py lines 197–210). -/
def AsyncMail.get_message (m : AsyncMail) (oracle : Oracle) (message_id : String) :
    Except Err (Option Message) × List HttpRequest :=
  let out := m._interact oracle "GET"
    (urljoin m._base_url (MessageMethods.GET_MESSAGE_BY_ID message_id))
    none (some [("id", message_id)])
  (decodeResponse decodeMessage out.1, out.2)

/-- `AsyncMail.get_source` (xclient.py lines 234–247). -/
def AsyncMail.get_source (m : AsyncMail) (oracle : Oracle) (source_id : String) :
    Except Err (Option Source) × List HttpRequest :=
  let out := m._interact oracle "GET"
    (urljoin m._base_url (MessageMethods.GET_SOURCES_BY_ID source_id))
    none (some [("id", source_id)])
  (decodeResponse decodeSource out.1, out.2)

/-! ### Concrete fixtures for witnesses and counterexamples -/

/-- A concrete token. -/
def tok0 : Token := { id := "i1", token := "t1" }

/-- A gateway constructed without a token. -/
def m0 : AsyncMail := (AsyncMail.init none).1

/-- A gateway constructed with `tok0`. -/
def m1 : AsyncMail := (AsyncMail.init (some tok0)).1

/-- A server that answers every request alike. -/
def constOracle (r : HttpResponse) : Oracle := fun _ => r

/-- A server answering 200 with an empty body. -/
def oracleEmpty : Oracle := constOracle { status := 200, body := "" }

/-- A server answering 400. -/
def oracle400 : Oracle := constOracle { status := 400, body := "" }

/-- The request `_interact` builds for `GET u` with no parameters on a
token-less gateway. -/
def reqGETu : HttpRequest :=
  { method := "GET", url := "u", headers := [], jsonBody := none, params := none }

/-- A well-formed account response body. -/
def acctBody : String :=
  "\x7b\"id\":\"1\",\"address\":\"user@ex.com\",\"quota\":40000000,\"used\":0,\"createdAt\":\"t1\",\"updatedAt\":\"t2\"\x7d"

/-- A server answering 200 with `acctBody`. -/
def oracleAcct : Oracle := constOracle { status := 200, body := acctBody }

/-- A well-formed message-page response body (page 3, no messages). -/
def pageBody : String := "\x7b\"page\":3,\"total\":0,\"messages\":[]\x7d"

/-- A server answering 200 with `pageBody`. -/
def oraclePage : Oracle := constOracle { status := 200, body := pageBody }

/-- The declared JSON field names of every record type the client decodes:
a key outside this list is an unknown field to each of them. -/
def declaredFields : List String :=
  ["id", "address", "quota", "used", "createdAt", "updatedAt",
   "domain", "isActive", "isPublic",
   "sender", "recipient", "subject", "intro", "seen", "flagged", "size",
   "data", "page", "total", "domains", "messages"]

/-- The fields of a decodable account object, as parsed JSON. -/
def acctKvs : List (String × Json) :=
  [("id", Json.str "1"), ("address", Json.str "user@ex.com"),
   ("quota", Json.num 40000000), ("used", Json.num 0),
   ("createdAt", Json.str "t1"), ("updatedAt", Json.str "t2")]

/-- The request record `_interact` builds: method, URL, session headers,
JSON body, query parameters. -/
def mkReq (method url : String) (headers : List (String × String))
    (jsonBody : Option Json) (params : Option (List (String × String))) : HttpRequest :=
  { method := method, url := url, headers := headers
    jsonBody := jsonBody, params := params }

/-! ### Helper lemmas -/

/-- String append cancels on the left. -/
theorem string_append_left_cancel {p a b : String} (h : p ++ a = p ++ b) : a = b := by
  have hd := congrArg String.data h
  simp only [String.data_append] at hd
  exact String.ext (List.append_cancel_left hd)

/-- `_interact` on `GET` issues the one request with the parameters
attached and no body. -/
theorem interact_GET_eq (m : AsyncMail) (oracle : Oracle) (url : String)
    (body : Option Json) (params : Option (List (String × String))) :
    m._interact oracle "GET" url body params =
      (statusDispatch (oracle (mkReq "GET" url m._client_headers none params)),
       [mkReq "GET" url m._client_headers none params]) := rfl

/-- `_interact` on `POST` issues the one request with the body attached
and no parameters. -/
theorem interact_POST_eq (m : AsyncMail) (oracle : Oracle) (url : String)
    (body : Option Json) (params : Option (List (String × String))) :
    m._interact oracle "POST" url body params =
      (statusDispatch (oracle (mkReq "POST" url m._client_headers body none)),
       [mkReq "POST" url m._client_headers body none]) := rfl

/-- `_interact` on `DELETE` issues the one request with the parameters
attached and no body. -/
theorem interact_DELETE_eq (m : AsyncMail) (oracle : Oracle) (url : String)
    (body : Option Json) (params : Option (List (String × String))) :
    m._interact oracle "DELETE" url body params =
      (statusDispatch (oracle (mkReq "DELETE" url m._client_headers none params)),
       [mkReq "DELETE" url m._client_headers none params]) := rfl

/-- `_interact` on `PATCH` issues the one request with the body attached
and no parameters. -/
theorem interact_PATCH_eq (m : AsyncMail) (oracle : Oracle) (url : String)
    (body : Option Json) (params : Option (List (String × String))) :
    m._interact oracle "PATCH" url body params =
      (statusDispatch (oracle (mkReq "PATCH" url m._client_headers body none)),
       [mkReq "PATCH" url m._client_headers body none]) := rfl

/-- `_interact` on any other verb raises `MethodNotAllowed` and issues no
request. -/
theorem interact_other_eq (m : AsyncMail) (oracle : Oracle) (method url : String)
    (body : Option Json) (params : Option (List (String × String)))
    (h1 : method ≠ "GET") (h2 : method ≠ "POST") (h3 : method ≠ "DELETE")
    (h4 : method ≠ "PATCH") :
    m._interact oracle method url body params =
      (Except.error (Err.MethodNotAllowed "Report this as a bug on GitHub"), []) := by
  simp [AsyncMail._interact, h1, h2, h3, h4]

/-- The status table of `_interact`, stated on `statusDispatch`: each
documented status maps to its error kind, an undocumented non-200 status
to `ValueError`, and no non-200 status to a returned value. -/
theorem statusDispatch_mapping (r : HttpResponse) :
    (r.status = 400 → ∃ s, statusDispatch r = Except.error (Err.MissingArgument s)) ∧
    (r.status = 401 → ∃ s, statusDispatch r = Except.error (Err.AccountTokenInvalid s)) ∧
    (r.status = 404 → ∃ s, statusDispatch r = Except.error (Err.EntityNotFound s)) ∧
    (r.status = 405 → ∃ s, statusDispatch r = Except.error (Err.MethodNotAllowed s)) ∧
    (r.status = 418 → ∃ s, statusDispatch r = Except.error (Err.RefusedToProcess s)) ∧
    (r.status = 422 → ∃ s, statusDispatch r = Except.error (Err.EntityNotProcessable s)) ∧
    (r.status = 429 → ∃ s, statusDispatch r = Except.error (Err.RatelimitError s)) ∧
    (r.status ∉ ([200, 400, 401, 404, 405, 418, 422, 429] : List Nat) →
      statusDispatch r = Except.error (Err.ValueError "Unknown Error")) ∧
    (r.status ≠ 200 → ∀ b, statusDispatch r ≠ Except.ok b) := by
  refine ⟨?_, ?_, ?_, ?_, ?_, ?_, ?_, ?_, ?_⟩
  · intro h
    refine ⟨"Something in your payload is missing! Or, the payload isn't there at all.", ?_⟩
    simp [statusDispatch, h]
  · intro h
    refine ⟨"Your token isn't correct (Or the headers hasn't a token at all!). Remember, every request (Except POST /accounts and POST /token) should be authenticated with a Bearer token!", ?_⟩
    simp [statusDispatch, h]
  · intro h
    refine ⟨"You're trying to access an account that doesn't exist? Or maybe reading a non-existing message? Go check that!", ?_⟩
    simp [statusDispatch, h]
  · intro h
    refine ⟨"Maybe you're trying to GET a /token or POST a /messages. Check the path you're trying to make a request to and check if the method is the correct one.", ?_⟩
    simp [statusDispatch, h]
  · intro h
    refine ⟨"Server is a teapot. And refused to process your request at the moment. Kindly contact the developers for further details.", ?_⟩
    simp [statusDispatch, h]
  · intro h
    refine ⟨"Some went wrong on your payload. Like, the username of the address while creating the account isn't long enough, or, the account's domain isn't correct. Things like that.", ?_⟩
    simp [statusDispatch, h]
  · intro h
    refine ⟨"You exceeded the limit of 8 requests per second! Try delaying the request by one second!", ?_⟩
    simp [statusDispatch, h]
  · intro h
    simp only [List.mem_cons, List.not_mem_nil, or_false, not_or] at h
    obtain ⟨h200, h400, h401, h404, h405, h418, h422, h429⟩ := h
    simp [statusDispatch, h200, h400, h401, h404, h405, h418, h422, h429]
  · intro h b
    unfold statusDispatch
    split_ifs <;> simp_all

/-- `statusDispatch` returns the response bytes exactly on status 200. -/
theorem statusDispatch_ok_iff (r : HttpResponse) :
    statusDispatch r = Except.ok (some r.body) ↔ r.status = 200 := by
  constructor
  · intro h
    by_contra hne
    exact (statusDispatch_mapping r).2.2.2.2.2.2.2.2 hne _ h
  · intro h
    simp [statusDispatch, h]

/-- Every request `_interact` issues carries the session's default
headers. -/
theorem interact_headers (m : AsyncMail) (oracle : Oracle) (method url : String)
    (body : Option Json) (params : Option (List (String × String)))
    (req : HttpRequest)
    (h : req ∈ (m._interact oracle method url body params).2) :
    req.headers = m._client_headers := by
  by_cases h1 : method = "GET"
  · subst h1; rw [interact_GET_eq] at h; simp at h; subst h; rfl
  by_cases h2 : method = "POST"
  · subst h2; rw [interact_POST_eq] at h; simp at h; subst h; rfl
  by_cases h3 : method = "DELETE"
  · subst h3; rw [interact_DELETE_eq] at h; simp at h; subst h; rfl
  by_cases h4 : method = "PATCH"
  · subst h4; rw [interact_PATCH_eq] at h; simp at h; subst h; rfl
  rw [interact_other_eq m oracle method url body params h1 h2 h3 h4] at h
  simp at h

/-! ### Claims -/

/-- C1: for every supported verb, when the one issued request comes back
with status 400, 401, 404, 405, 418, 422 or 429, `_interact` fails with
`MissingArgument`, `AccountTokenInvalid`, `EntityNotFound`,
`MethodNotAllowed`, `RefusedToProcess`, `EntityNotProcessable` or
`RatelimitError` respectively; with any other non-200 status it fails with
the generic `ValueError("Unknown Error")`; and for a non-200 status it
never returns a value. -/
theorem C1_interact_status_error_mapping
    (m : AsyncMail) (oracle : Oracle) (method url : String) (body : Option Json)
    (params : Option (List (String × String))) (req : HttpRequest)
    (hm : method = "GET" ∨ method = "POST" ∨ method = "DELETE" ∨ method = "PATCH")
    (hreq : (m._interact oracle method url body params).2 = [req]) :
    ((oracle req).status = 400 →
      ∃ s, (m._interact oracle method url body params).1 = Except.error (Err.MissingArgument s)) ∧
    ((oracle req).status = 401 →
      ∃ s, (m._interact oracle method url body params).1 = Except.error (Err.AccountTokenInvalid s)) ∧
    ((oracle req).status = 404 →
      ∃ s, (m._interact oracle method url body params).1 = Except.error (Err.EntityNotFound s)) ∧
    ((oracle req).status = 405 →
      ∃ s, (m._interact oracle method url body params).1 = Except.error (Err.MethodNotAllowed s)) ∧
    ((oracle req).status = 418 →
      ∃ s, (m._interact oracle method url body params).1 = Except.error (Err.RefusedToProcess s)) ∧
    ((oracle req).status = 422 →
      ∃ s, (m._interact oracle method url body params).1 = Except.error (Err.EntityNotProcessable s)) ∧
    ((oracle req).status = 429 →
      ∃ s, (m._interact oracle method url body params).1 = Except.error (Err.RatelimitError s)) ∧
    ((oracle req).status ∉ ([200, 400, 401, 404, 405, 418, 422, 429] : List Nat) →
      (m._interact oracle method url body params).1 = Except.error (Err.ValueError "Unknown Error")) ∧
    ((oracle req).status ≠ 200 →
      ∀ b, (m._interact oracle method url body params).1 ≠ Except.ok b) := by
  have key : (m._interact oracle method url body params).1 = statusDispatch (oracle req) := by
    rcases hm with h | h | h | h
    · subst h
      simp only [interact_GET_eq, List.cons.injEq, and_true] at hreq ⊢
      rw [hreq]
    · subst h
      simp only [interact_POST_eq, List.cons.injEq, and_true] at hreq ⊢
      rw [hreq]
    · subst h
      simp only [interact_DELETE_eq, List.cons.injEq, and_true] at hreq ⊢
      rw [hreq]
    · subst h
      simp only [interact_PATCH_eq, List.cons.injEq, and_true] at hreq ⊢
      rw [hreq]
  rw [key]
  exact statusDispatch_mapping (oracle req)

/-- C1 witness: the mapping at a concrete 400 response to a concrete GET. -/
theorem C1_witness :
    ((oracle400 reqGETu).status = 400 →
      ∃ s, (m0._interact oracle400 "GET" "u" none none).1 = Except.error (Err.MissingArgument s)) ∧
    ((oracle400 reqGETu).status = 401 →
      ∃ s, (m0._interact oracle400 "GET" "u" none none).1 = Except.error (Err.AccountTokenInvalid s)) ∧
    ((oracle400 reqGETu).status = 404 →
      ∃ s, (m0._interact oracle400 "GET" "u" none none).1 = Except.error (Err.EntityNotFound s)) ∧
    ((oracle400 reqGETu).status = 405 →
      ∃ s, (m0._interact oracle400 "GET" "u" none none).1 = Except.error (Err.MethodNotAllowed s)) ∧
    ((oracle400 reqGETu).status = 418 →
      ∃ s, (m0._interact oracle400 "GET" "u" none none).1 = Except.error (Err.RefusedToProcess s)) ∧
    ((oracle400 reqGETu).status = 422 →
      ∃ s, (m0._interact oracle400 "GET" "u" none none).1 = Except.error (Err.EntityNotProcessable s)) ∧
    ((oracle400 reqGETu).status = 429 →
      ∃ s, (m0._interact oracle400 "GET" "u" none none).1 = Except.error (Err.RatelimitError s)) ∧
    ((oracle400 reqGETu).status ∉ ([200, 400, 401, 404, 405, 418, 422, 429] : List Nat) →
      (m0._interact oracle400 "GET" "u" none none).1 = Except.error (Err.ValueError "Unknown Error")) ∧
    ((oracle400 reqGETu).status ≠ 200 →
      ∀ b, (m0._interact oracle400 "GET" "u" none none).1 ≠ Except.ok b) :=
  C1_interact_status_error_mapping m0 oracle400 "GET" "u" none none reqGETu
    (Or.inl rfl) rfl

/-- C2: for every supported verb, `_interact` issues exactly one request
carrying the given method and URL — the body attached for POST/PATCH, the
query parameters attached for GET/DELETE — and returns the raw response
bytes if and only if the status is 200. -/
theorem C2_interact_single_request
    (m : AsyncMail) (oracle : Oracle) (method url : String) (body : Option Json)
    (params : Option (List (String × String)))
    (hm : method = "GET" ∨ method = "POST" ∨ method = "DELETE" ∨ method = "PATCH") :
    ∃ req, (m._interact oracle method url body params).2 = [req] ∧
      req.method = method ∧ req.url = url ∧ req.headers = m._client_headers ∧
      ((method = "POST" ∨ method = "PATCH") → req.jsonBody = body ∧ req.params = none) ∧
      ((method = "GET" ∨ method = "DELETE") → req.params = params ∧ req.jsonBody = none) ∧
      ((m._interact oracle method url body params).1 = Except.ok (some (oracle req).body) ↔
        (oracle req).status = 200) := by
  rcases hm with h | h | h | h
  · subst h
    refine ⟨mkReq "GET" url m._client_headers none params, ?_, rfl, rfl, rfl, ?_, ?_, ?_⟩
    · rw [interact_GET_eq]
    · intro hc; rcases hc with hc | hc <;> exact absurd hc (by decide)
    · intro _; exact ⟨rfl, rfl⟩
    · rw [interact_GET_eq]; exact statusDispatch_ok_iff _
  · subst h
    refine ⟨mkReq "POST" url m._client_headers body none, ?_, rfl, rfl, rfl, ?_, ?_, ?_⟩
    · rw [interact_POST_eq]
    · intro _; exact ⟨rfl, rfl⟩
    · intro hc; rcases hc with hc | hc <;> exact absurd hc (by decide)
    · rw [interact_POST_eq]; exact statusDispatch_ok_iff _
  · subst h
    refine ⟨mkReq "DELETE" url m._client_headers none params, ?_, rfl, rfl, rfl, ?_, ?_, ?_⟩
    · rw [interact_DELETE_eq]
    · intro hc; rcases hc with hc | hc <;> exact absurd hc (by decide)
    · intro _; exact ⟨rfl, rfl⟩
    · rw [interact_DELETE_eq]; exact statusDispatch_ok_iff _
  · subst h
    refine ⟨mkReq "PATCH" url m._client_headers body none, ?_, rfl, rfl, rfl, ?_, ?_, ?_⟩
    · rw [interact_PATCH_eq]
    · intro _; exact ⟨rfl, rfl⟩
    · intro hc; rcases hc with hc | hc <;> exact absurd hc (by decide)
    · rw [interact_PATCH_eq]; exact statusDispatch_ok_iff _

/-- C2 witness: a concrete GET against the all-400 server. -/
theorem C2_witness :
    ∃ req, (m0._interact oracle400 "GET" "u" none none).2 = [req] ∧
      req.method = "GET" ∧ req.url = "u" ∧ req.headers = m0._client_headers ∧
      (("GET" = "POST" ∨ "GET" = "PATCH") → req.jsonBody = none ∧ req.params = none) ∧
      (("GET" = "GET" ∨ "GET" = "DELETE") → req.params = none ∧ req.jsonBody = none) ∧
      ((m0._interact oracle400 "GET" "u" none none).1 = Except.ok (some (oracle400 req).body) ↔
        (oracle400 req).status = 200) :=
  C2_interact_single_request m0 oracle400 "GET" "u" none none (Or.inl rfl)

/-- C6: `_interact` called with a verb outside GET, POST, DELETE, PATCH
fails with `MethodNotAllowed` and issues no request at all. -/
theorem C6_unsupported_verb
    (m : AsyncMail) (oracle : Oracle) (method url : String) (body : Option Json)
    (params : Option (List (String × String)))
    (hm : ¬(method = "GET" ∨ method = "POST" ∨ method = "DELETE" ∨ method = "PATCH")) :
    m._interact oracle method url body params =
      (Except.error (Err.MethodNotAllowed "Report this as a bug on GitHub"), []) := by
  push_neg at hm
  exact interact_other_eq m oracle method url body params hm.1 hm.2.1 hm.2.2.1 hm.2.2.2

/-- C6 witness: the verb `PUT`. -/
theorem C6_witness :
    m0._interact oracle400 "PUT" "u" none none =
      (Except.error (Err.MethodNotAllowed "Report this as a bug on GitHub"), []) :=
  C6_unsupported_verb m0 oracle400 "PUT" "u" none none (by decide)

/-- C5: `delete_account` with a stored token and no explicit id issues one
DELETE targeting the token's embedded account id; with neither a token nor
an id it fails with `AccountTokenInvalid` and issues no request. -/
theorem C5_delete_account_token (tok : Token) (oracle : Oracle) :
    ((AsyncMail.init none).1.delete_account oracle none =
      (Except.error (Err.AccountTokenInvalid "You need an account token to delete an account!"),
       [])) ∧
    ∃ req, ((AsyncMail.init (some tok)).1.delete_account oracle none).2 = [req] ∧
      req.method = "DELETE" ∧
      req.url = "https://api.mail.tm/accounts/" ++ tok.id := by
  refine ⟨rfl,
    mkReq "DELETE" (urljoin "https://api.mail.tm" ("/accounts/" ++ tok.id))
      [("Authorization", "Bearer " ++ tok.token)] none none, rfl, rfl, ?_⟩
  show urljoin "https://api.mail.tm" ("/accounts/" ++ tok.id) =
    "https://api.mail.tm/accounts/" ++ tok.id
  unfold urljoin
  rw [← String.append_assoc]
  rfl

/-- C5 witness: the concrete token `tok0`. -/
theorem C5_witness :
    ((AsyncMail.init none).1.delete_account oracle400 none =
      (Except.error (Err.AccountTokenInvalid "You need an account token to delete an account!"),
       [])) ∧
    ∃ req, ((AsyncMail.init (some tok0)).1.delete_account oracle400 none).2 = [req] ∧
      req.method = "DELETE" ∧
      req.url = "https://api.mail.tm/accounts/" ++ tok0.id :=
  C5_delete_account_token tok0 oracle400

/-- C7: constructing the gateway issues no request; with a token the
session headers are exactly the bearer header and every request
`_interact` issues on that session carries it; without a token the
session headers are empty. The string rendering of the token object is
modelled from the spec as the bearer credential itself. -/
theorem C7_bearer_header (tok : Token) :
    (AsyncMail.init (some tok)).2 = [] ∧
    (AsyncMail.init none).2 = [] ∧
    (AsyncMail.init (some tok)).1._client_headers =
      [("Authorization", "Bearer " ++ tok.token)] ∧
    (AsyncMail.init none).1._client_headers = [] ∧
    ∀ (oracle : Oracle) (method url : String) (body : Option Json)
      (params : Option (List (String × String))) (req : HttpRequest),
      req ∈ ((AsyncMail.init (some tok)).1._interact oracle method url body params).2 →
      ("Authorization", "Bearer " ++ tok.token) ∈ req.headers := by
  refine ⟨rfl, rfl, rfl, rfl, ?_⟩
  intro oracle method url body params req h
  rw [interact_headers _ oracle method url body params req h]
  show ("Authorization", "Bearer " ++ tok.token) ∈
    [("Authorization", "Bearer " ++ tok.token)]
  simp

/-- C7 witness: the concrete token `tok0` on a concrete GET; the one
request issued carries the bearer header. -/
theorem C7_witness :
    (AsyncMail.init (some tok0)).2 = [] ∧
    (AsyncMail.init (some tok0)).1._client_headers =
      [("Authorization", "Bearer " ++ tok0.token)] ∧
    ("Authorization", "Bearer " ++ tok0.token) ∈
      (mkReq "GET" "u" [("Authorization", "Bearer t1")] none none).headers :=
  have h := C7_bearer_header tok0
  ⟨h.1, h.2.2.1,
   h.2.2.2.2 oracle400 "GET" "u" none none
     (mkReq "GET" "u" [("Authorization", "Bearer t1")] none none)
     (List.mem_singleton.mpr rfl)⟩

/-- C10: `delete_account` with both a stored token and an explicit id
targets the explicit id, not the token's embedded one. -/
theorem C10_delete_account_explicit_id (tok : Token) (oracle : Oracle)
    (account_id : String) :
    ∃ req, ((AsyncMail.init (some tok)).1.delete_account oracle (some account_id)).2 = [req] ∧
      req.method = "DELETE" ∧
      req.url = "https://api.mail.tm/accounts/" ++ account_id ∧
      (tok.id ≠ account_id → req.url ≠ "https://api.mail.tm/accounts/" ++ tok.id) := by
  have hurl : urljoin "https://api.mail.tm" ("/accounts/" ++ account_id) =
      "https://api.mail.tm/accounts/" ++ account_id := by
    unfold urljoin
    rw [← String.append_assoc]
    rfl
  refine ⟨mkReq "DELETE" (urljoin "https://api.mail.tm" ("/accounts/" ++ account_id))
      [("Authorization", "Bearer " ++ tok.token)] none none, rfl, rfl, hurl, ?_⟩
  intro hne heq
  rw [hurl] at heq
  exact hne (string_append_left_cancel heq).symm

/-- C10 witness: token `tok0` (account id `i1`) with explicit id `other`. -/
theorem C10_witness :
    ∃ req, ((AsyncMail.init (some tok0)).1.delete_account oracle400 (some "other")).2 = [req] ∧
      req.method = "DELETE" ∧
      req.url = "https://api.mail.tm/accounts/" ++ "other" ∧
      (tok0.id ≠ "other" → req.url ≠ "https://api.mail.tm/accounts/" ++ tok0.id) :=
  C10_delete_account_explicit_id tok0 oracle400 "other"

/-- A 200 response whose body validates into `a` makes the endpoint's
decode tail return `some a`. -/
theorem decodeResponse_ok {α : Type} (dec : Json → Option α) (r : HttpResponse) (a : α)
    (h200 : r.status = 200) (hdec : msgspecDecode dec r.body = Except.ok a) :
    decodeResponse dec (statusDispatch r) = Except.ok (some a) := by
  have hs : statusDispatch r = Except.ok (some r.body) := by
    simp [statusDispatch, h200]
  rw [hs]
  simp [decodeResponse, hdec]

/-- C4 counterexample: on a gateway without a token, `get_account "abc"`
issues exactly one request, and that request carries no query parameters
at all (`params = none`): the account id is not sent as a query parameter,
because `_interact` attaches `params` only to GET and DELETE requests. -/
theorem C4_counterexample :
    (m0.get_account oracleEmpty "abc").2 =
      [mkReq "POST" "https://api.mail.tm/accounts/abc" [] none none] ∧
    (mkReq "POST" "https://api.mail.tm/accounts/abc" [] none none).params = none :=
  ⟨rfl, rfl⟩

/-- C4 (amended): `get_account` issues one POST to `/accounts/{id}`; the
id is handed to the dispatcher as a query-parameter mapping, but the
dispatcher drops query parameters on POST, so the issued request carries
none; a 200 response that validates as an `Account` is returned decoded. -/
theorem C4_get_account_post (tok : Option Token) (oracle : Oracle) (account_id : String) :
    ∃ req, ((AsyncMail.init tok).1.get_account oracle account_id).2 = [req] ∧
      req.method = "POST" ∧
      req.url = "https://api.mail.tm/accounts/" ++ account_id ∧
      req.params = none ∧ req.jsonBody = none ∧
      ∀ a : Account, (oracle req).status = 200 →
        msgspecDecode decodeAccount (oracle req).body = Except.ok a →
        ((AsyncMail.init tok).1.get_account oracle account_id).1 = Except.ok (some a) := by
  refine ⟨mkReq "POST" (urljoin "https://api.mail.tm" ("/accounts/" ++ account_id))
      (AsyncMail.init tok).1._client_headers none none, rfl, rfl, ?_, rfl, rfl, ?_⟩
  · show urljoin "https://api.mail.tm" ("/accounts/" ++ account_id) =
      "https://api.mail.tm/accounts/" ++ account_id
    unfold urljoin
    rw [← String.append_assoc]
    rfl
  · intro a h200 hdec
    exact decodeResponse_ok decodeAccount _ a h200 hdec

/-- C4 witness: decoding a concrete 200 account response through
`get_account`. -/
theorem C4_witness :
    ∃ req, (m0.get_account oracleAcct "abc").2 = [req] ∧
      req.method = "POST" ∧
      req.url = "https://api.mail.tm/accounts/" ++ "abc" ∧
      req.params = none ∧ req.jsonBody = none ∧
      ∀ a : Account, (oracleAcct req).status = 200 →
        msgspecDecode decodeAccount (oracleAcct req).body = Except.ok a →
        (m0.get_account oracleAcct "abc").1 = Except.ok (some a) :=
  C4_get_account_post none oracleAcct "abc"

/-- C3 counterexample: against a server that answers 200 with an empty
body, `get_me` does not return the absent value: the dispatcher hands the
empty bytes over and the decode of empty bytes fails, so `get_me` raises a
decode error. -/
theorem C3_counterexample :
    (m0.get_me oracleEmpty).1 = Except.error (Err.DecodeError "Input data was truncated") ∧
    (m0.get_me oracleEmpty).2 = [mkReq "GET" "https://api.mail.tm/me" [] none none] ∧
    (m0.get_me oracleEmpty).1 ≠ Except.ok none :=
  ⟨rfl, rfl, fun h => Except.noConfusion h⟩

/-- C3 (amended): each decoding operation returns the absent value only
when the dispatcher's result is `None`; the dispatcher returns the raw
bytes of every 200 response, the empty ones included, so empty response
bytes are handed to the decoder and the decode fails with a decode error
instead of yielding the absent value. -/
theorem C3_empty_bytes_are_decoded (tok : Option Token)
    (domain_id account_id address password message_id source_id : String) (page : Int) :
    ((AsyncMail.init tok).1.get_me oracleEmpty).1 =
      Except.error (Err.DecodeError "Input data was truncated") ∧
    ((AsyncMail.init tok).1.get_domains oracleEmpty).1 =
      Except.error (Err.DecodeError "Input data was truncated") ∧
    ((AsyncMail.init tok).1.get_domain oracleEmpty domain_id).1 =
      Except.error (Err.DecodeError "Input data was truncated") ∧
    ((AsyncMail.init tok).1.get_account oracleEmpty account_id).1 =
      Except.error (Err.DecodeError "Input data was truncated") ∧
    ((AsyncMail.init tok).1.create_account oracleEmpty address password).1 =
      Except.error (Err.DecodeError "Input data was truncated") ∧
    ((AsyncMail.init tok).1.get_messages oracleEmpty page).1 =
      Except.error (Err.DecodeError "Input data was truncated") ∧
    ((AsyncMail.init tok).1.get_message oracleEmpty message_id).1 =
      Except.error (Err.DecodeError "Input data was truncated") ∧
    ((AsyncMail.init tok).1.get_source oracleEmpty source_id).1 =
      Except.error (Err.DecodeError "Input data was truncated") :=
  ⟨rfl, rfl, rfl, rfl, rfl, rfl, rfl, rfl⟩

/-- C8: `get_messages page` issues one GET on `/messages` whose query
parameters carry `page`; the no-argument form defaults to page 1; a 200
response validating as a `MessagePageView` — a page number with an ordered
list of messages — is returned decoded. -/
theorem C8_get_messages_page (tok : Option Token) (oracle : Oracle) (page : Int) :
    ((AsyncMail.init tok).1.get_messages_default oracle =
      (AsyncMail.init tok).1.get_messages oracle 1) ∧
    ∃ req, ((AsyncMail.init tok).1.get_messages oracle page).2 = [req] ∧
      req.method = "GET" ∧
      req.url = "https://api.mail.tm/messages" ∧
      req.params = some [("page", toString page)] ∧
      ∀ v : MessagePageView, (oracle req).status = 200 →
        msgspecDecode decodeMessagePageView (oracle req).body = Except.ok v →
        ((AsyncMail.init tok).1.get_messages oracle page).1 = Except.ok (some v) := by
  refine ⟨rfl, mkReq "GET" (urljoin "https://api.mail.tm" "/messages")
      (AsyncMail.init tok).1._client_headers none (some [("page", toString page)]),
    rfl, rfl, rfl, rfl, ?_⟩
  intro v h200 hdec
  exact decodeResponse_ok decodeMessagePageView _ v h200 hdec

/-- C8 witness: page 3 against a server returning a concrete page body. -/
theorem C8_witness :
    ((AsyncMail.init none).1.get_messages_default oraclePage =
      (AsyncMail.init none).1.get_messages oraclePage 1) ∧
    ∃ req, ((AsyncMail.init none).1.get_messages oraclePage 3).2 = [req] ∧
      req.method = "GET" ∧
      req.url = "https://api.mail.tm/messages" ∧
      req.params = some [("page", toString (3 : Int))] ∧
      ∀ v : MessagePageView, (oraclePage req).status = 200 →
        msgspecDecode decodeMessagePageView (oraclePage req).body = Except.ok v →
        ((AsyncMail.init none).1.get_messages oraclePage 3).1 = Except.ok (some v) :=
  C8_get_messages_page none oraclePage 3

/-- Looking a key up in an object skips over an entry whose key differs. -/
theorem jLookup_skip {key k : String} (hne : k ≠ key) (v : Json)
    (kvs1 kvs2 : List (String × Json)) :
    jLookup key (kvs1 ++ (k, v) :: kvs2) = jLookup key (kvs1 ++ kvs2) := by
  induction kvs1 with
  | nil => simp [jLookup, hne]
  | cons p rest ih =>
    obtain ⟨k', v'⟩ := p
    by_cases h : k' = key
    · simp [jLookup, h]
    · simp [jLookup, h, ih]

/-- C9: every record decode is non-strict — inserting a field with a key
none of the record types declare anywhere into a JSON object changes no
decode result: the unknown field is ignored, never rejected. -/
theorem C9_nonstrict_decode (kvs1 kvs2 : List (String × Json)) (k : String) (v : Json)
    (hk : k ∉ declaredFields) :
    decodeAccount (Json.obj (kvs1 ++ (k, v) :: kvs2)) =
      decodeAccount (Json.obj (kvs1 ++ kvs2)) ∧
    decodeDomain (Json.obj (kvs1 ++ (k, v) :: kvs2)) =
      decodeDomain (Json.obj (kvs1 ++ kvs2)) ∧
    decodeMessage (Json.obj (kvs1 ++ (k, v) :: kvs2)) =
      decodeMessage (Json.obj (kvs1 ++ kvs2)) ∧
    decodeSource (Json.obj (kvs1 ++ (k, v) :: kvs2)) =
      decodeSource (Json.obj (kvs1 ++ kvs2)) ∧
    decodeDomainPageView (Json.obj (kvs1 ++ (k, v) :: kvs2)) =
      decodeDomainPageView (Json.obj (kvs1 ++ kvs2)) ∧
    decodeMessagePageView (Json.obj (kvs1 ++ (k, v) :: kvs2)) =
      decodeMessagePageView (Json.obj (kvs1 ++ kvs2)) := by
  have hfield : ∀ key : String, key ∈ declaredFields → k ≠ key :=
    fun key hmem heq => hk (heq ▸ hmem)
  refine ⟨?_, ?_, ?_, ?_, ?_, ?_⟩
  · simp only [decodeAccount]
    rw [jLookup_skip (hfield "id" (by decide)) v kvs1 kvs2,
        jLookup_skip (hfield "address" (by decide)) v kvs1 kvs2,
        jLookup_skip (hfield "quota" (by decide)) v kvs1 kvs2,
        jLookup_skip (hfield "used" (by decide)) v kvs1 kvs2,
        jLookup_skip (hfield "createdAt" (by decide)) v kvs1 kvs2,
        jLookup_skip (hfield "updatedAt" (by decide)) v kvs1 kvs2]
  · simp only [decodeDomain]
    rw [jLookup_skip (hfield "id" (by decide)) v kvs1 kvs2,
        jLookup_skip (hfield "domain" (by decide)) v kvs1 kvs2,
        jLookup_skip (hfield "isActive" (by decide)) v kvs1 kvs2,
        jLookup_skip (hfield "isPublic" (by decide)) v kvs1 kvs2,
        jLookup_skip (hfield "createdAt" (by decide)) v kvs1 kvs2,
        jLookup_skip (hfield "updatedAt" (by decide)) v kvs1 kvs2]
  · simp only [decodeMessage]
    rw [jLookup_skip (hfield "id" (by decide)) v kvs1 kvs2,
        jLookup_skip (hfield "sender" (by decide)) v kvs1 kvs2,
        jLookup_skip (hfield "recipient" (by decide)) v kvs1 kvs2,
        jLookup_skip (hfield "subject" (by decide)) v kvs1 kvs2,
        jLookup_skip (hfield "intro" (by decide)) v kvs1 kvs2,
        jLookup_skip (hfield "seen" (by decide)) v kvs1 kvs2,
        jLookup_skip (hfield "flagged" (by decide)) v kvs1 kvs2,
        jLookup_skip (hfield "size" (by decide)) v kvs1 kvs2,
        jLookup_skip (hfield "createdAt" (by decide)) v kvs1 kvs2,
        jLookup_skip (hfield "updatedAt" (by decide)) v kvs1 kvs2]
  · simp only [decodeSource]
    rw [jLookup_skip (hfield "id" (by decide)) v kvs1 kvs2,
        jLookup_skip (hfield "data" (by decide)) v kvs1 kvs2]
  · simp only [decodeDomainPageView]
    rw [jLookup_skip (hfield "page" (by decide)) v kvs1 kvs2,
        jLookup_skip (hfield "total" (by decide)) v kvs1 kvs2,
        jLookup_skip (hfield "domains" (by decide)) v kvs1 kvs2]
  · simp only [decodeMessagePageView]
    rw [jLookup_skip (hfield "page" (by decide)) v kvs1 kvs2,
        jLookup_skip (hfield "total" (by decide)) v kvs1 kvs2,
        jLookup_skip (hfield "messages" (by decide)) v kvs1 kvs2]

/-- C9 witness: a concrete decodable account object with one unknown field
inserted decodes the same with or without it. -/
theorem C9_witness :
    decodeAccount (Json.obj (acctKvs ++ ("unknownField", Json.str "x") :: [])) =
      decodeAccount (Json.obj (acctKvs ++ [])) ∧
    decodeDomain (Json.obj (acctKvs ++ ("unknownField", Json.str "x") :: [])) =
      decodeDomain (Json.obj (acctKvs ++ [])) ∧
    decodeMessage (Json.obj (acctKvs ++ ("unknownField", Json.str "x") :: [])) =
      decodeMessage (Json.obj (acctKvs ++ [])) ∧
    decodeSource (Json.obj (acctKvs ++ ("unknownField", Json.str "x") :: [])) =
      decodeSource (Json.obj (acctKvs ++ [])) ∧
    decodeDomainPageView (Json.obj (acctKvs ++ ("unknownField", Json.str "x") :: [])) =
      decodeDomainPageView (Json.obj (acctKvs ++ [])) ∧
    decodeMessagePageView (Json.obj (acctKvs ++ ("unknownField", Json.str "x") :: [])) =
      decodeMessagePageView (Json.obj (acctKvs ++ [])) :=
  C9_nonstrict_decode acctKvs [] "unknownField" (Json.str "x") (by decide)
